import Mathlib

/-!
# Verification of the Crypto-Bot pipeline (src/main.py)

A shallow embedding of the scrape-classify-notify pipeline of the
repository's single source file `src/main.py`, together with theorems
settling the frozen claims about it.

Conventions of the embedding:
* Python exceptions are modelled by the inductive `PyExc`; fallible code
  returns `Except PyExc α`.  The relevant parts of the Python / httpx /
  tenacity exception class hierarchies are modelled by predicates
  (`isRequestError`, `isOSErrorClass`, ...) that say which `except`
  clauses catch which exception.
* Log output is modelled explicitly: functions that the claims say "log"
  return a `List LogEntry` alongside their result.
* Machine-level details (sockets, the browser, the HTTP wire format) are
  parameters of the functions: a scrape result page, an HTTP response,
  a per-attempt world for the retried call.
-/

set_option autoImplicit false

namespace CryptoBot

/-! ## Python string primitives used by the source -/

/-- Default whitespace set of Python's `str.strip()` (ASCII part; the
tweets and model answers involved are ASCII in the claims). -/
def pyIsSpace (c : Char) : Bool :=
  c = ' ' || c = '\t' || c = '\n' || c = '\x0d' || c = '\x0b' || c = '\x0c'

/-- Python `s.strip()`: drop leading and trailing whitespace. -/
def pyStrip (s : String) : String :=
  ((s.toList.dropWhile pyIsSpace).reverse.dropWhile pyIsSpace).reverse.asString

/-- Python `s.upper()` (ASCII case mapping suffices for the claims). -/
def pyUpper (s : String) : String :=
  (s.toList.map Char.toUpper).asString

/-- Python `s[:n]`: the first `n` characters of `s`. -/
def pyTake (s : String) (n : Nat) : String :=
  (s.toList.take n).asString

/-- Python `lst[i]` as a total function into `Option` (`none` models the
`IndexError` that a real out-of-range access raises). -/
def pyIndex {α : Type} (xs : List α) (i : Nat) : Option α :=
  xs.get? i

/-- Split a character list on each non-overlapping occurrence of the
non-empty separator, scanning left to right (the semantics of Python's
`str.split(sep)`).  `fuel` only bounds the recursion; callers pass the
input length, which the scan never exhausts. -/
def listSplit (sep : List Char) : Nat → List Char → List Char →
    List (List Char)
  | 0, cs, acc => [acc.reverse ++ cs]
  | _ + 1, [], acc => [acc.reverse]
  | fuel + 1, c :: rest, acc =>
      if sep.isPrefixOf (c :: rest) then
        acc.reverse :: listSplit sep fuel ((c :: rest).drop sep.length) []
      else
        listSplit sep fuel rest (c :: acc)

/-- Python `s.split(sep)` for a non-empty `sep`. -/
def pySplit (s sep : String) : List String :=
  (listSplit sep.toList s.toList.length s.toList []).map List.asString

/-- Replace each non-overlapping occurrence of non-empty `old`, scanning
left to right (the semantics of Python's `str.replace(old, new)`). -/
def listReplace (old new : List Char) : Nat → List Char → List Char
  | 0, cs => cs
  | _ + 1, [] => []
  | fuel + 1, c :: rest =>
      if old.isPrefixOf (c :: rest) then
        new ++ listReplace old new fuel ((c :: rest).drop old.length)
      else
        c :: listReplace old new fuel rest

/-- Python `s.replace(old, new)` for a non-empty `old`. -/
def pyReplace (s old new : String) : String :=
  (listReplace old.toList new.toList s.toList.length s.toList).asString

/-! ## Exceptions

Constructors cover the exception classes the source distinguishes.
`connectError` and `timeoutException` are `httpx.ConnectError` /
`httpx.TimeoutException`; `otherRequestError` stands for any other
subclass of `httpx.RequestError` (e.g. `httpx.ReadError`,
`httpx.RemoteProtocolError`); `retryError` is `tenacity.RetryError`
wrapping the exception of the last failed attempt. -/

inductive PyExc : Type
  | connectError
  | timeoutException
  | otherRequestError
  | gaiError
  | osError
  | noSuchElement
  | valueError
  | indexError
  | otherError
  | retryError (last : PyExc)
  deriving DecidableEq, Repr

/-- Membership in the `httpx.RequestError` class: `ConnectError` and
`TimeoutException` are subclasses of it, as is every other transport /
request error of httpx. -/
def isRequestError : PyExc → Bool
  | .connectError => true
  | .timeoutException => true
  | .otherRequestError => true
  | _ => false

/-- The tenacity predicate `retry_if_exception_type((httpx.ConnectError,
httpx.TimeoutException))`. -/
def isRetryableExc : PyExc → Bool
  | .connectError => true
  | .timeoutException => true
  | _ => false

/-- Membership in `(socket.gaierror, OSError)`, the classes caught by
`check_network_connection` (`gaierror` is itself an `OSError`). -/
def isOSErrorClass : PyExc → Bool
  | .gaiError => true
  | .osError => true
  | _ => false

/-- Membership in `(NoSuchElementException, ValueError)`, the classes the
per-entry handler of `get_recent_tweets` catches. -/
def caughtByEntryHandler : PyExc → Bool
  | .noSuchElement => true
  | .valueError => true
  | _ => false

/-! ## Logging -/

inductive LogLevel : Type
  | debug
  | info
  | error
  deriving DecidableEq, Repr

structure LogEntry : Type where
  level : LogLevel
  msg : String
  deriving DecidableEq, Repr

/-- Rendering of `str(e)` for log interpolation. -/
def excMsg : PyExc → String
  | .connectError => "ConnectError"
  | .timeoutException => "TimeoutException"
  | .otherRequestError => "RequestError"
  | .gaiError => "gaierror"
  | .osError => "OSError"
  | .noSuchElement => "NoSuchElementException"
  | .valueError => "ValueError"
  | .indexError => "IndexError"
  | .otherError => "Exception"
  | .retryError _ => "RetryError"

/-! ## JSON values

`response.json()` produces a Python value; `Json` models the possible
shapes.  Numbers are irrelevant to every claim and are carried as `Int`. -/

inductive Json : Type
  | null
  | bool (b : Bool)
  | num (n : Int)
  | str (s : String)
  | arr (elems : List Json)
  | obj (fields : List (String × Json))

/-- Python `isinstance(result, list)`. -/
def Json.isList : Json → Bool
  | .arr _ => true
  | _ => false

/-- First binding of a key in an object's field list. -/
def jsonLookup (k : String) : List (String × Json) → Option Json
  | [] => none
  | (k', v) :: rest => if k' = k then some v else jsonLookup k rest

/-- `result[0].get('generated_text', '')` followed by `.strip()`:
* on a non-dict value, `.get` does not exist (`AttributeError`), `none`;
* a missing key yields the default `''`;
* a present non-string value makes the subsequent `.strip()` raise
  (`AttributeError`), `none`. -/
def getGeneratedText : Json → Option String
  | .obj fields =>
      match jsonLookup "generated_text" fields with
      | some (.str s) => some s
      | some _ => none
      | none => some ""
  | _ => none

/-! ## Signal classifier (`check_network_connection`, `create_prompt`,
`is_buy_signal` and its `@retry` decorator) -/

/-- The part of an httpx response the source reads: `status_code`,
`json()` (which may raise on a malformed body) and `text`. -/
structure HttpResp : Type where
  status : Nat
  body : Except PyExc Json
  text : String

/-- `check_network_connection`: attempt a raw connection to the API host
on port 443; `(socket.gaierror, OSError)` is caught, logged and maps to
`False`; any other exception propagates.  The outcome of the connection
attempt is the parameter `conn`. -/
def checkNetworkConnection (conn : Except PyExc Unit) :
    Except PyExc Bool × List LogEntry :=
  match conn with
  | .ok _ => (.ok true, [])
  | .error e =>
      if isOSErrorClass e then
        (.ok false, [⟨.error, "Network error: " ++ excMsg e⟩])
      else
        (.error e, [])

/-- `create_prompt`: the fixed instruction template around `text[:500]`. -/
def createPrompt (text : String) : String :=
  "<|begin_of_text|>" ++
  "<|start_header_id|>system<|end_header_id|>" ++
  "Analyze if this tweet explicitly recommends buying cryptocurrency. " ++
  "Respond ONLY with 'YES' or 'NO'.<|eot_id|>" ++
  "<|start_header_id|>user<|end_header_id|>" ++
  pyTake text 500 ++ "<|eot_id|>" ++
  "<|start_header_id|>assistant<|end_header_id|>"

/-- What the environment does on one attempt of the decorated call:
the outcome of the reachability probe's connection attempt, and the
outcome of `client.post` (an exception, or a response). -/
structure AttemptWorld : Type where
  conn : Except PyExc Unit
  post : Except PyExc HttpResp

/-- Result of one execution of the body of `is_buy_signal`:
the value returned or the exception raised, whether the HTTP request was
issued, and the log output. -/
structure AttemptResult : Type where
  result : Except PyExc Bool
  requested : Bool
  logs : List LogEntry

/-- One execution of the body of `is_buy_signal` (`src/main.py`
lines 157-200), before the `@retry` decorator is applied:
* probe fails → `False` without issuing the request;
* the `try` block runs `client.post` and the response handling;
* `except httpx.RequestError: raise` re-raises request errors;
* `except Exception: return False` swallows everything else. -/
def isBuySignalOnce (w : AttemptWorld) : AttemptResult :=
  match checkNetworkConnection w.conn with
  | (.error e, ls) => ⟨.error e, false, ls⟩
  | (.ok false, ls) => ⟨.ok false, false, ls⟩
  | (.ok true, ls) =>
    match w.post with
    | .error e =>
        if isRequestError e then
          ⟨.error e, true, ls ++ [⟨.error, "Connection error: " ++ excMsg e⟩]⟩
        else
          ⟨.ok false, true, ls ++ [⟨.error, "Analysis error: " ++ excMsg e⟩]⟩
    | .ok resp =>
        if resp.status = 200 then
          match resp.body with
          | .error e =>
              if isRequestError e then
                ⟨.error e, true, ls ++ [⟨.error, "Connection error: " ++ excMsg e⟩]⟩
              else
                ⟨.ok false, true, ls ++ [⟨.error, "Analysis error: " ++ excMsg e⟩]⟩
          | .ok j =>
            match j with
            | .arr (x :: _) =>
                match getGeneratedText x with
                | some s =>
                    let answer := pyUpper (pyStrip s)
                    ⟨.ok (answer == "YES"), true,
                      ls ++ [⟨.info, "API response: " ++ answer⟩]⟩
                | none =>
                    ⟨.ok false, true,
                      ls ++ [⟨.error, "Analysis error: AttributeError"⟩]⟩
            | _ =>
                ⟨.ok false, true, ls ++ [⟨.error, "Invalid API response"⟩]⟩
        else
          ⟨.ok false, true,
            ls ++ [⟨.error, "API error " ++ toString resp.status ++ ": " ++
                      pyTake resp.text 200⟩] ++
              (if resp.status = 401 then [⟨.error, "Invalid API token"⟩]
               else if resp.status = 404 then [⟨.error, "Model not found"⟩]
               else [])⟩

/-- tenacity's `wait_exponential(multiplier, min, max)` evaluated at a
given `attempt_number`: `max(max(0, min), min(multiplier * 2 ^ n, max))`. -/
def waitExponential (multiplier lo hi n : Nat) : Nat :=
  max (max 0 lo) (min (multiplier * 2 ^ n) hi)

/-- Observable trace of the decorated call: final outcome, number of
attempts made, backoff sleeps performed, whether each attempt issued the
HTTP request, and the log output. -/
structure RetryTrace : Type where
  result : Except PyExc Bool
  attempts : Nat
  waits : List Nat
  requests : List Bool
  logs : List LogEntry

/-- tenacity's retry loop for `stop=stop_after_attempt(maxAttempts)`,
`wait=wait_exponential(multiplier=1, min=2, max=15)` and
`retry=retry_if_exception_type((ConnectError, TimeoutException))`:
after a retryable failure on attempt `n`, stop if `maxAttempts ≤ n`
(raising `RetryError` around the last exception — `reraise` is left at
its default `False`), otherwise sleep `wait_exponential(n)` and retry.
`fuel` bounds the recursion; `isBuySignal` supplies `fuel = maxAttempts`,
which is never exhausted. -/
def retryFrom (attempt : Nat → AttemptResult) (maxAttempts : Nat) :
    Nat → Nat → RetryTrace
  | _, 0 => ⟨.error .otherError, 0, [], [], []⟩
  | n, fuel + 1 =>
      let a := attempt n
      match a.result with
      | .ok b => ⟨.ok b, 1, [], [a.requested], a.logs⟩
      | .error e =>
          if isRetryableExc e = false then
            ⟨.error e, 1, [], [a.requested], a.logs⟩
          else if maxAttempts ≤ n then
            ⟨.error (.retryError e), 1, [], [a.requested], a.logs⟩
          else
            let w := waitExponential 1 2 15 n
            let rest := retryFrom attempt maxAttempts (n + 1) fuel
            ⟨rest.result, rest.attempts + 1, w :: rest.waits,
              a.requested :: rest.requests, a.logs ++ rest.logs⟩

/-- `is_buy_signal` as seen by callers: the body wrapped in
`@retry(stop=stop_after_attempt(2), wait=wait_exponential(multiplier=1,
min=2, max=15), retry=retry_if_exception_type((httpx.ConnectError,
httpx.TimeoutException)))`.  `world n` is what the environment does on
attempt `n` (attempts are numbered from 1, as in tenacity). -/
def isBuySignal (world : Nat → AttemptWorld) : RetryTrace :=
  retryFrom (fun n => isBuySignalOnce (world n)) 2 1 2

/-! ## Datetimes

`datetime.strptime(...)` yields a naive datetime (second/microsecond are
always zero here and are omitted); `.replace(tzinfo=timezone.utc)` sets
the UTC marker.  Aware datetimes compare by absolute time; `toMin`
converts to minutes since 0001-01-01 00:00 in the proleptic Gregorian
calendar (the same calendar as Python's `datetime.toordinal`). -/

structure PyDateTime : Type where
  year : Nat
  month : Nat
  day : Nat
  hour : Nat
  minute : Nat
  tzUtc : Bool
  deriving DecidableEq, Repr

def isLeapYear (y : Nat) : Bool :=
  (y % 4 == 0 && y % 100 != 0) || y % 400 == 0

def daysBeforeYear (y : Nat) : Nat :=
  365 * (y - 1) + (y - 1) / 4 - (y - 1) / 100 + (y - 1) / 400

/-- Days in the months strictly before month `m` of a common year. -/
def cumDaysBeforeMonth : Nat → Nat
  | 1 => 0 | 2 => 31 | 3 => 59 | 4 => 90 | 5 => 120 | 6 => 151
  | 7 => 181 | 8 => 212 | 9 => 243 | 10 => 273 | 11 => 304 | 12 => 334
  | _ => 0

def daysBeforeMonth (y m : Nat) : Nat :=
  cumDaysBeforeMonth m + (if 2 < m && isLeapYear y then 1 else 0)

/-- Minutes since 0001-01-01 00:00. -/
def toMin (d : PyDateTime) : Nat :=
  ((daysBeforeYear d.year + daysBeforeMonth d.year d.month + (d.day - 1)) * 24
      + d.hour) * 60 + d.minute

/-! ## `datetime.strptime(s, "%b %d, %Y ¬∑ %I:%M %p")`

A recursive-descent rendering of the regex CPython's `_strptime` builds
for this format string: `%b` is a case-insensitive 3-letter month
abbreviation, `%d` is `3[01]|[12]\d|0[1-9]|[1-9]`, `%Y` is exactly four
digits, `%I` is `1[0-2]|0[1-9]|[1-9]`, `%M` is `[0-5]\d|\d`, `%p` is
case-insensitive AM/PM, a whitespace run in the format matches one or
more whitespace characters, other characters match literally, and the
whole input must be consumed.  The literal between `%Y` and `%I` is the
two characters U+00AC U+2211 that appear in the source file.  A failed
parse is a `ValueError` at the call site. -/

def digitVal (c : Char) : Option Nat :=
  if c.isDigit then some (c.toNat - '0'.toNat) else none

/-- Match one-or-more whitespace characters (`\s+`). -/
def pSpaces1 : List Char → Option (List Char)
  | c :: rest => if pyIsSpace c then some (rest.dropWhile pyIsSpace) else none
  | [] => none

/-- Match a literal character sequence. -/
def pLit : List Char → List Char → Option (List Char)
  | [], cs => some cs
  | l :: ls, c :: cs => if c = l then pLit ls cs else none
  | _ :: _, [] => none

def toLowerList (cs : List Char) : List Char :=
  cs.map Char.toLower

def monthAbbrevs : List (Nat × List Char) :=
  [(1, ['j','a','n']), (2, ['f','e','b']), (3, ['m','a','r']),
   (4, ['a','p','r']), (5, ['m','a','y']), (6, ['j','u','n']),
   (7, ['j','u','l']), (8, ['a','u','g']), (9, ['s','e','p']),
   (10, ['o','c','t']), (11, ['n','o','v']), (12, ['d','e','c'])]

def pMonth : List Char → Option (Nat × List Char)
  | c1 :: c2 :: c3 :: rest =>
      (monthAbbrevs.find? (fun p => p.2 = toLowerList [c1, c2, c3])).map
        (fun p => (p.1, rest))
  | _ => none

/-- Two digits forming a value in `[lo2, hi2]`, else one digit in
`[lo1, hi1]` (the alternation order of the CPython regexes). -/
def pNum2or1 (lo2 hi2 lo1 hi1 : Nat) : List Char → Option (Nat × List Char)
  | c1 :: c2 :: rest =>
      match digitVal c1, digitVal c2 with
      | some d1, some d2 =>
          let v := 10 * d1 + d2
          if lo2 ≤ v ∧ v ≤ hi2 then some (v, rest)
          else if lo1 ≤ d1 ∧ d1 ≤ hi1 then some (d1, c2 :: rest)
          else none
      | some d1, none =>
          if lo1 ≤ d1 ∧ d1 ≤ hi1 then some (d1, c2 :: rest) else none
      | none, _ => none
  | [c1] =>
      match digitVal c1 with
      | some d1 => if lo1 ≤ d1 ∧ d1 ≤ hi1 then some (d1, []) else none
      | none => none
  | [] => none

def pYear4 : List Char → Option (Nat × List Char)
  | c1 :: c2 :: c3 :: c4 :: rest =>
      match digitVal c1, digitVal c2, digitVal c3, digitVal c4 with
      | some d1, some d2, some d3, some d4 =>
          some (((d1 * 10 + d2) * 10 + d3) * 10 + d4, rest)
      | _, _, _, _ => none
  | _ => none

def pAmPm : List Char → Option (Bool × List Char)
  | c1 :: c2 :: rest =>
      if toLowerList [c1, c2] = ['a', 'm'] then some (false, rest)
      else if toLowerList [c1, c2] = ['p', 'm'] then some (true, rest)
      else none
  | _ => none

def strptimeTweet (s : String) : Option PyDateTime := do
  let cs := s.toList
  let (mon, cs) ← pMonth cs
  let cs ← pSpaces1 cs
  let (day, cs) ← pNum2or1 1 31 1 9 cs
  let cs ← pLit [','] cs
  let cs ← pSpaces1 cs
  let (year, cs) ← pYear4 cs
  let cs ← pSpaces1 cs
  let cs ← pLit ['¬', '∑'] cs
  let cs ← pSpaces1 cs
  let (hr12, cs) ← pNum2or1 1 12 1 9 cs
  let cs ← pLit [':'] cs
  let (minute, cs) ← pNum2or1 0 59 0 9 cs
  let cs ← pSpaces1 cs
  let (isPM, cs) ← pAmPm cs
  if cs = [] then
    let hour :=
      if isPM then (if hr12 = 12 then 12 else hr12 + 12)
      else (if hr12 = 12 then 0 else hr12)
    some ⟨year, mon, day, hour, minute, false⟩
  else none

/-! ## Content fetcher (`TwitterScraper.get_recent_tweets`) -/

/-- One `.timeline-item` DOM entry as the source reads it: the text of
`.tweet-content`, the `href` of `a.tweet-link` and the `title` of
`.tweet-date a`.  `none` models the element being absent, in which case
`find_element` raises `NoSuchElementException`. -/
structure RawTweet : Type where
  content : Option String
  link : Option String
  dateTitle : Option String

/-- A tweet dict as appended to the result list. -/
structure TweetItem : Type where
  text : String
  id : String
  handle : String
  time : PyDateTime
  deriving DecidableEq, Repr

/-- The body of the per-entry loop (`src/main.py` lines 94-112):
extract content, link, id (`link.split("/status/")[1].split("#")[0]`,
where a missing second piece is an `IndexError`), date title, parse the
timestamp, mark it UTC, and keep the entry iff it is strictly newer than
the cutoff. -/
def processTweet (cutoffMin : Int) (handle : String) (t : RawTweet) :
    Except PyExc (Option TweetItem) :=
  match t.content with
  | none => .error .noSuchElement
  | some content =>
    match t.link with
    | none => .error .noSuchElement
    | some link =>
      match pyIndex (pySplit link "/status/") 1 with
      | none => .error .indexError
      | some afterStatus =>
        let tweetId := (pySplit afterStatus "#").headD ""
        match t.dateTitle with
        | none => .error .noSuchElement
        | some dateStr =>
          match strptimeTweet (pyReplace dateStr " UTC" "") with
          | none => .error .valueError
          | some parsed =>
            let tweetTime : PyDateTime := { parsed with tzUtc := true }
            if (toMin tweetTime : Int) > cutoffMin then
              .ok (some ⟨pyTake content 500, tweetId, handle, tweetTime⟩)
            else
              .ok none

/-- The `for tweet in tweet_elements:` loop: a `NoSuchElementException`
or `ValueError` from one entry is caught by the per-entry handler
(debug-logged, `continue`); any other exception aborts the loop and is
reported to the account-level handler, so later entries are not
processed.  Returns the collected items, the escaping exception if any,
and the log output. -/
def scanEntries (cutoffMin : Int) (handle : String) :
    List RawTweet → List TweetItem × Option PyExc × List LogEntry
  | [] => ([], none, [])
  | t :: rest =>
      match processTweet cutoffMin handle t with
      | .ok (some item) =>
          let r := scanEntries cutoffMin handle rest
          (item :: r.1, r.2.1, ⟨.info, "New tweet"⟩ :: r.2.2)
      | .ok none =>
          scanEntries cutoffMin handle rest
      | .error e =>
          if caughtByEntryHandler e then
            let r := scanEntries cutoffMin handle rest
            (r.1, r.2.1, ⟨.debug, "Skipping tweet: " ++ excMsg e⟩ :: r.2.2)
          else
            ([], some e, [])

/-- Result of one call to `get_recent_tweets`: the returned list, the
exception the account-level handler caught (if any), and the log
output.  The function itself never raises. -/
structure ScrapeResult : Type where
  items : List TweetItem
  caught : Option PyExc
  logs : List LogEntry

/-- `TwitterScraper.get_recent_tweets` (`src/main.py` lines 81-122).
`page` is the outcome of `driver.get` + `find_elements`: an exception
(navigation failure), or the list of `.timeline-item` entries, of which
the code takes the first 5.  `tweets` is initialised before the `try`,
so the account-level handler returns whatever was collected before the
exception. -/
def get_recent_tweets (now : PyDateTime) (handle : String)
    (page : Except PyExc (List RawTweet)) : ScrapeResult :=
  let cutoffMin : Int := (toMin now : Int) - 60
  let head : LogEntry := ⟨.info, "Scraping @" ++ handle⟩
  match page with
  | .error e =>
      { items := []
        caught := some e
        logs := [head, ⟨.error, "Scraping error: " ++ excMsg e⟩,
                 ⟨.info, "Found 0 valid tweets"⟩] }
  | .ok entries =>
      let r := scanEntries cutoffMin handle (entries.take 5)
      { items := r.1
        caught := r.2.1
        logs := head :: r.2.2 ++
          (match r.2.1 with
           | some e => [⟨.error, "Scraping error: " ++ excMsg e⟩]
           | none => []) ++
          [⟨.info, "Found " ++ toString r.1.length ++ " valid tweets"⟩] }

/-! ## Cycle orchestrator (`check_influencers`) -/

/-- The statically configured account list (handle, display name). -/
def INFLUENCERS : List (String × String) :=
  [("justsaurabh1103", "Saurabh Tiwari"),
   ("TheDustyBC", "DustyBC Crypto"),
   ("Trader_Jibon", "Trader_J"),
   ("cryptocevo", "Cevo"),
   ("WhalePanda", "WhalePanda"),
   ("loomdart", "Loomdart"),
   ("KoroushAK", "Koroush AK"),
   ("Tradermayne", "Mayne"),
   ("AltcoinGordon", "Gordon"),
   ("Trader_XO", "XO"),
   ("CryptoWizardd", "WIZZ"),
   ("MartiniGuyYT", "That Martini Guy ‚Çø")]

/-- Zero-pad a number to two digits (strftime `%m`/`%d`/`%H`/`%M`). -/
def pad2 (n : Nat) : String :=
  if n < 10 then "0" ++ toString n else toString n

/-- `tweet['time'].strftime('%Y-%m-%d %H:%M UTC')`. -/
def strftimeAlert (d : PyDateTime) : String :=
  toString d.year ++ "-" ++ pad2 d.month ++ "-" ++ pad2 d.day ++ " " ++
    pad2 d.hour ++ ":" ++ pad2 d.minute ++ " UTC"

/-- The four emoji marker strings exactly as their characters appear in
the source file (each starts with U+F8FF). -/
def alertMarker : String := "üö®"

def dateMarker : String := "üìÖ"

def textMarker : String := "üìù"

def linkMarker : String := "üîó"

/-- The alert message f-string (`src/main.py` lines 225-230). -/
def buildMessage (name handle : String) (t : TweetItem) : String :=
  alertMarker ++ " BUY ALERT from " ++ name ++ "\n" ++
  dateMarker ++ " " ++ strftimeAlert t.time ++ "\n" ++
  textMarker ++ " " ++ pyTake t.text 200 ++ "...\n" ++
  linkMarker ++ " https://twitter.com/" ++ handle ++ "/status/" ++ t.id

/-- The collaborators of one cycle:
* `scraperInit`: outcome of `TwitterScraper()` (its `__init__` re-raises
  WebDriver failures);
* `fetch`: `scraper.get_recent_tweets(handle)` as check_influencers
  sees it — a call that returns a list or raises;
* `classify`: `await is_buy_signal(text)`;
* `send`: `context.bot.send_message(GROUP_CHAT_ID, message)`. -/
structure CycleEnv : Type where
  scraperInit : Except PyExc Unit
  fetch : String → Except PyExc (List TweetItem)
  classify : String → Except PyExc Bool
  send : String → Except PyExc Unit

/-- The per-item loop (`src/main.py` lines 219-234): classify, build and
send the alert on a positive classification; any exception in this step
is caught, error-logged and the loop continues.  Returns the messages
successfully handed to `send` and the log output. -/
def processItems (env : CycleEnv) (name handle : String) :
    List TweetItem → List String × List LogEntry
  | [] => ([], [])
  | t :: rest =>
      let step : Except PyExc (List String) :=
        match env.classify t.text with
        | .error e => .error e
        | .ok isBuy =>
            if isBuy then
              match env.send (buildMessage name handle t) with
              | .error e => .error e
              | .ok _ => .ok [buildMessage name handle t]
            else
              .ok []
      match step with
      | .ok sentNow =>
          let r := processItems env name handle rest
          (sentNow ++ r.1, ⟨.info, "Buy signal"⟩ :: r.2)
      | .error e =>
          let r := processItems env name handle rest
          (r.1, ⟨.error, "Processing error: " ++ excMsg e⟩ :: r.2)

/-- The per-account loop: fetch each account's tweets, run the per-item
loop; an exception raised by `fetch` escapes the loop (to the
cycle-level handler).  Returns sent messages, the escaping exception if
any, and logs. -/
def accountLoop (env : CycleEnv) :
    List (String × String) → List String × Option PyExc × List LogEntry
  | [] => ([], none, [])
  | (handle, name) :: rest =>
      match env.fetch handle with
      | .error e => ([], some e, [])
      | .ok tweets =>
          let p := processItems env name handle tweets
          let r := accountLoop env rest
          (p.1 ++ r.1, r.2.1, p.2 ++ r.2.2)

/-- Result of one invocation of `check_influencers`: messages sent, how
many times `scraper.close()` ran, the exception propagated to the
scheduler (if any), and logs. -/
structure CycleResult : Type where
  sent : List String
  closeCount : Nat
  propagated : Option PyExc
  logs : List LogEntry

/-- `check_influencers` (`src/main.py` lines 205-240), over an account
list (the program itself passes `INFLUENCERS`).  `scraper =
TwitterScraper()` runs *before* the `try`, so a constructor failure
propagates and `close` never runs; afterwards the `try/except/finally`
catches any exception from the account loop and always calls
`scraper.close()` exactly once. -/
def check_influencers (env : CycleEnv) (accounts : List (String × String)) :
    CycleResult :=
  match env.scraperInit with
  | .error e => { sent := [], closeCount := 0, propagated := some e, logs := [] }
  | .ok _ =>
      let r := accountLoop env accounts
      { sent := r.1
        closeCount := 1
        propagated := none
        logs := r.2.2 ++
          (match r.2.1 with
           | some e => [⟨.error, "Cycle error: " ++ excMsg e⟩]
           | none => []) ++
          [⟨.info, "Monitoring complete"⟩] }

/-! ## Concrete instances used by witnesses and counterexamples -/

def respOf (status : Nat) (body : Except PyExc Json) : HttpResp :=
  ⟨status, body, ""⟩

def worldOf (conn : Except PyExc Unit) (post : Except PyExc HttpResp) :
    Nat → AttemptWorld :=
  fun _ => ⟨conn, post⟩

def yesResp : HttpResp :=
  respOf 200 (.ok (.arr [.obj [("generated_text", .str " yes ")]]))

def noResp : HttpResp :=
  respOf 200 (.ok (.arr [.obj [("generated_text", .str "no")]]))

def authResp : HttpResp := respOf 401 (.ok (.arr []))

def emptyListResp : HttpResp := respOf 200 (.ok (.arr []))

/-- A scrape time of 2026-01-02 16:00 UTC (cutoff 15:00). -/
def exNow : PyDateTime := ⟨2026, 1, 2, 16, 0, true⟩

/-- A well-formed timeline entry posted 15:45 UTC, inside the window. -/
def goodEntry : RawTweet :=
  ⟨some "Buy BTC now", some "https://nitter.net/bob/status/123#m",
   some "Jan 2, 2026 ¬∑ 3:45 PM UTC"⟩

/-- An entry whose permalink lacks the `/status/` marker. -/
def badLinkEntry : RawTweet :=
  ⟨some "hello", some "https://nitter.net/bob/with_replies",
   some "Jan 2, 2026 ¬∑ 3:50 PM UTC"⟩

/-- The item `goodEntry` extracts to at `exNow`. -/
def goodItem : TweetItem :=
  ⟨"Buy BTC now", "123", "bob", ⟨2026, 1, 2, 15, 45, true⟩⟩

def bobT1 : TweetItem := ⟨"crash", "1", "bob", ⟨2026, 1, 2, 15, 40, true⟩⟩

def bobT2 : TweetItem := ⟨"moon", "2", "bob", ⟨2026, 1, 2, 15, 50, true⟩⟩

def bobEnv : CycleEnv :=
  ⟨.ok (),
   fun h => if h = "bob" then .ok [bobT1, bobT2] else .ok [],
   fun s => if s = "crash" then .error .otherError else .ok true,
   fun _ => .ok ()⟩

def okEnv : CycleEnv :=
  ⟨.ok (), fun _ => .ok [], fun _ => .ok false, fun _ => .ok ()⟩

def failInitEnv : CycleEnv :=
  ⟨.error .otherError, fun _ => .ok [], fun _ => .ok false, fun _ => .ok ()⟩

def aliceItem : TweetItem :=
  ⟨"Buy $XYZ now!!", "777", "alice", ⟨2026, 1, 2, 15, 55, true⟩⟩

def aliceEnv : CycleEnv :=
  ⟨.ok (), fun h => if h = "alice" then .ok [aliceItem] else .ok [],
   fun _ => .ok true, fun _ => .ok ()⟩

/-! ## General lemmas: the retry wrapper -/

lemma isBuySignal_ok (world : Nat → AttemptWorld) (b : Bool)
    (h : (isBuySignalOnce (world 1)).result = .ok b) :
    isBuySignal world =
      ⟨.ok b, 1, [], [(isBuySignalOnce (world 1)).requested],
        (isBuySignalOnce (world 1)).logs⟩ := by
  unfold isBuySignal retryFrom
  simp [h]

lemma isBuySignal_noRetry (world : Nat → AttemptWorld) (e : PyExc)
    (h : (isBuySignalOnce (world 1)).result = .error e)
    (hr : isRetryableExc e = false) :
    isBuySignal world =
      ⟨.error e, 1, [], [(isBuySignalOnce (world 1)).requested],
        (isBuySignalOnce (world 1)).logs⟩ := by
  unfold isBuySignal retryFrom
  simp [h, hr]

lemma isBuySignal_retry_exhaust (world : Nat → AttemptWorld) (e1 e2 : PyExc)
    (h1 : (isBuySignalOnce (world 1)).result = .error e1)
    (hr1 : isRetryableExc e1 = true)
    (h2 : (isBuySignalOnce (world 2)).result = .error e2)
    (hr2 : isRetryableExc e2 = true) :
    isBuySignal world =
      ⟨.error (.retryError e2), 2, [2],
        [(isBuySignalOnce (world 1)).requested,
         (isBuySignalOnce (world 2)).requested],
        (isBuySignalOnce (world 1)).logs ++ (isBuySignalOnce (world 2)).logs⟩ := by
  unfold isBuySignal retryFrom
  simp [h1, hr1, waitExponential]
  unfold retryFrom
  simp [h2, hr2]

lemma isBuySignal_retry_second (world : Nat → AttemptWorld) (e1 : PyExc)
    (h1 : (isBuySignalOnce (world 1)).result = .error e1)
    (hr1 : isRetryableExc e1 = true) :
    (isBuySignal world).attempts = 2 ∧ (isBuySignal world).waits = [2] := by
  unfold isBuySignal retryFrom
  simp [h1, hr1, waitExponential]
  unfold retryFrom
  rcases hh : (isBuySignalOnce (world 2)).result with e2 | e2 <;> simp [hh]
  by_cases hr2 : isRetryableExc e2 = false <;> simp [hr2]

/-! ## General lemmas: one execution of the classifier body -/

lemma isBuySignalOnce_badShape (w : AttemptWorld) (resp : HttpResp) (j : Json)
    (hconn : w.conn = .ok ()) (hpost : w.post = .ok resp)
    (hst : resp.status = 200) (hbody : resp.body = .ok j)
    (hshape : ∀ x rest, j ≠ .arr (x :: rest)) :
    (isBuySignalOnce w).result = .ok false ∧
    LogEntry.mk .error "Invalid API response" ∈ (isBuySignalOnce w).logs := by
  unfold isBuySignalOnce checkNetworkConnection
  rw [hconn, hpost]
  simp only [hst, hbody]
  cases j with
  | arr elems =>
      cases elems with
      | nil => simp
      | cons x rest => exact absurd rfl (hshape x rest)
  | null => simp
  | bool b => simp
  | num n => simp
  | str s => simp
  | obj fields => simp

lemma isBuySignalOnce_firstElem (w : AttemptWorld) (resp : HttpResp)
    (x : Json) (rest : List Json) (s : String)
    (hconn : w.conn = .ok ()) (hpost : w.post = .ok resp)
    (hst : resp.status = 200) (hbody : resp.body = .ok (.arr (x :: rest)))
    (hget : getGeneratedText x = some s) :
    (isBuySignalOnce w).result = .ok (pyUpper (pyStrip s) == "YES") := by
  unfold isBuySignalOnce checkNetworkConnection
  rw [hconn, hpost]
  simp [hst, hbody, hget]

lemma isBuySignalOnce_badStatus (w : AttemptWorld) (resp : HttpResp)
    (hconn : w.conn = .ok ()) (hpost : w.post = .ok resp)
    (hst : resp.status ≠ 200) :
    (isBuySignalOnce w).result = .ok false ∧
    ∃ l ∈ (isBuySignalOnce w).logs, l.level = .error := by
  unfold isBuySignalOnce checkNetworkConnection
  rw [hconn, hpost]
  simp [hst]

lemma isBuySignalOnce_probeFail (w : AttemptWorld) (e : PyExc)
    (hos : isOSErrorClass e = true) (hconn : w.conn = .error e) :
    isBuySignalOnce w =
      ⟨.ok false, false, [⟨.error, "Network error: " ++ excMsg e⟩]⟩ := by
  unfold isBuySignalOnce checkNetworkConnection
  rw [hconn]
  simp [hos]

lemma isBuySignalOnce_postError (w : AttemptWorld) (e : PyExc)
    (hconn : w.conn = .ok ()) (hpost : w.post = .error e) :
    (isRequestError e = true → (isBuySignalOnce w).result = .error e) ∧
    (isRequestError e = false →
      (isBuySignalOnce w).result = .ok false ∧
      ∃ l ∈ (isBuySignalOnce w).logs, l.level = .error) := by
  unfold isBuySignalOnce checkNetworkConnection
  rw [hconn, hpost]
  constructor
  · intro hreq; simp [hreq]
  · intro hreq; simp [hreq]

lemma isBuySignalOnce_jsonError (w : AttemptWorld) (resp : HttpResp)
    (e : PyExc) (hconn : w.conn = .ok ()) (hpost : w.post = .ok resp)
    (hst : resp.status = 200) (hbody : resp.body = .error e)
    (hreq : isRequestError e = false) :
    (isBuySignalOnce w).result = .ok false := by
  unfold isBuySignalOnce checkNetworkConnection
  rw [hconn, hpost]
  simp [hst, hbody, hreq]

lemma isBuySignalOnce_getNone (w : AttemptWorld) (resp : HttpResp)
    (x : Json) (rest : List Json)
    (hconn : w.conn = .ok ()) (hpost : w.post = .ok resp)
    (hst : resp.status = 200) (hbody : resp.body = .ok (.arr (x :: rest)))
    (hget : getGeneratedText x = none) :
    (isBuySignalOnce w).result = .ok false := by
  unfold isBuySignalOnce checkNetworkConnection
  rw [hconn, hpost]
  simp [hst, hbody, hget]

lemma isBuySignal_attempts_cases (world : Nat → AttemptWorld) :
    (isBuySignal world).attempts = 1 ∨
      ((isBuySignal world).attempts = 2 ∧ (isBuySignal world).waits = [2]) := by
  rcases h : (isBuySignalOnce (world 1)).result with e | b
  · by_cases hr : isRetryableExc e = false
    · left; rw [isBuySignal_noRetry world e h hr]
    · right; exact isBuySignal_retry_second world e h (by simpa using hr)
  · left; rw [isBuySignal_ok world b h]

lemma isBuySignal_waits_cases (world : Nat → AttemptWorld) :
    (isBuySignal world).waits = [] ∨ (isBuySignal world).waits = [2] := by
  rcases h : (isBuySignalOnce (world 1)).result with e | b
  · by_cases hr : isRetryableExc e = false
    · left; rw [isBuySignal_noRetry world e h hr]
    · right; exact (isBuySignal_retry_second world e h (by simpa using hr)).2
  · left; rw [isBuySignal_ok world b h]

/-! ## Claim theorems -/

/-- C1: For every HTTP response with status 200, the classifier
`is_buy_signal` parses the body as a list: if the body is not a non-empty
list it logs an error and returns false; otherwise it takes the first
element's generated-text field, strips whitespace and upper-cases it, and
returns true if and only if the result equals exactly "YES" (so " yes "
yields true and "no" yields false); for any non-200 status, including
401, it returns false. -/
theorem C1_response_classification
    (world : Nat → AttemptWorld) (resp : HttpResp)
    (hconn : (world 1).conn = .ok ())
    (hpost : (world 1).post = .ok resp) :
    (resp.status = 200 →
      (∀ j, resp.body = .ok j → (∀ x rest, j ≠ .arr (x :: rest)) →
        (isBuySignal world).result = .ok false ∧
        LogEntry.mk .error "Invalid API response" ∈ (isBuySignal world).logs) ∧
      (∀ x rest s, resp.body = .ok (.arr (x :: rest)) →
        getGeneratedText x = some s →
        (isBuySignal world).result = .ok (pyUpper (pyStrip s) == "YES"))) ∧
    (resp.status ≠ 200 → (isBuySignal world).result = .ok false) := by
  refine ⟨fun hst => ⟨fun j hbody hshape => ?_, fun x rest s hbody hget => ?_⟩,
    fun hst => ?_⟩
  · have h := isBuySignalOnce_badShape (world 1) resp j hconn hpost hst hbody hshape
    rw [isBuySignal_ok world false h.1]
    exact ⟨rfl, h.2⟩
  · have h := isBuySignalOnce_firstElem (world 1) resp x rest s hconn hpost hst
      hbody hget
    rw [isBuySignal_ok world _ h]
  · have h := isBuySignalOnce_badStatus (world 1) resp hconn hpost hst
    rw [isBuySignal_ok world false h.1]

/-- Witness for C1: a 200 response with body
`[{"generated_text": " yes "}]` classifies true, one with
`[{"generated_text": "no"}]` classifies false, and a 401 response
classifies false. -/
theorem C1_witness :
    (isBuySignal (worldOf (.ok ()) (.ok yesResp))).result = .ok true ∧
    (isBuySignal (worldOf (.ok ()) (.ok noResp))).result = .ok false ∧
    (isBuySignal (worldOf (.ok ()) (.ok authResp))).result = .ok false := by
  refine ⟨?_, ?_, ?_⟩
  · have h := ((C1_response_classification (worldOf (.ok ()) (.ok yesResp))
      yesResp rfl rfl).1 rfl).2 (.obj [("generated_text", .str " yes ")]) []
      " yes " rfl rfl
    exact h.trans rfl
  · have h := ((C1_response_classification (worldOf (.ok ()) (.ok noResp))
      noResp rfl rfl).1 rfl).2 (.obj [("generated_text", .str "no")]) []
      "no" rfl rfl
    exact h.trans rfl
  · exact (C1_response_classification (worldOf (.ok ()) (.ok authResp))
      authResp rfl rfl).2 (by decide)

/-- C2 counterexample: with a connect failure on both attempts, the
wrapper raises `tenacity.RetryError` wrapping the connect failure — not
the connect failure itself — because `reraise` is left at its default
`False`; this refutes "re-raises the transient failure after the attempts
are exhausted". -/
theorem C2_counterexample :
    (isBuySignal (worldOf (.ok ()) (.error .connectError))).result =
        .error (.retryError .connectError) ∧
    (isBuySignal (worldOf (.ok ()) (.error .connectError))).result ≠
        .error .connectError := by
  refine ⟨rfl, fun h => ?_⟩
  rw [show (isBuySignal (worldOf (.ok ()) (.error .connectError))).result =
      .error (.retryError .connectError) from rfl] at h
  simp at h

/-- C2 (amended): the classifier's retry wrapper retries a call exactly
when it raises a connect failure or a timeout, making at most 2 total
attempts with non-decreasing exponential backoff delays bounded within
[2, 15], and after the attempts are exhausted raises a retry-exhaustion
error wrapping the last transient failure (rather than re-raising the
transient failure itself); an exception of any other type is never
retried by the wrapper. -/
theorem C2_retry_policy (world : Nat → AttemptWorld) :
    ((isBuySignal world).attempts ≤ 2) ∧
    (∀ w ∈ (isBuySignal world).waits, 2 ≤ w ∧ w ≤ 15) ∧
    (isBuySignal world).waits.Chain' (fun a b => a ≤ b) ∧
    (∀ b, (isBuySignalOnce (world 1)).result = .ok b →
      (isBuySignal world).result = .ok b ∧ (isBuySignal world).attempts = 1) ∧
    (∀ e, (isBuySignalOnce (world 1)).result = .error e →
      isRetryableExc e = false →
      (isBuySignal world).result = .error e ∧
      (isBuySignal world).attempts = 1 ∧ (isBuySignal world).waits = []) ∧
    (∀ e, (isBuySignalOnce (world 1)).result = .error e →
      isRetryableExc e = true →
      (isBuySignal world).attempts = 2 ∧ (isBuySignal world).waits = [2]) ∧
    (∀ e1 e2, (isBuySignalOnce (world 1)).result = .error e1 →
      isRetryableExc e1 = true →
      (isBuySignalOnce (world 2)).result = .error e2 →
      isRetryableExc e2 = true →
      (isBuySignal world).result = .error (.retryError e2)) := by
  refine ⟨?_, ?_, ?_, fun b h => ?_, fun e h hr => ?_, fun e h hr => ?_,
    fun e1 e2 h1 hr1 h2 hr2 => ?_⟩
  · rcases isBuySignal_attempts_cases world with h | h
    · omega
    · omega
  · intro w hw
    rcases isBuySignal_waits_cases world with h | h <;> rw [h] at hw
    · simp at hw
    · simp at hw; omega
  · rcases isBuySignal_waits_cases world with h | h <;> rw [h] <;> simp
  · rw [isBuySignal_ok world b h]; exact ⟨rfl, rfl⟩
  · rw [isBuySignal_noRetry world e h hr]; exact ⟨rfl, rfl, rfl⟩
  · exact isBuySignal_retry_second world e h hr
  · rw [isBuySignal_retry_exhaust world e1 e2 h1 hr1 h2 hr2]

/-- Witness for C2: on a world whose every attempt raises a connect
failure, the wrapper makes 2 attempts, sleeps [2], and ends with a
retry-exhaustion error wrapping the connect failure. -/
theorem C2_witness :
    (isBuySignal (worldOf (.ok ()) (.error .connectError))).attempts = 2 ∧
    (isBuySignal (worldOf (.ok ()) (.error .connectError))).waits = [2] ∧
    (isBuySignal (worldOf (.ok ()) (.error .connectError))).result =
      .error (.retryError .connectError) := by
  have h := C2_retry_policy (worldOf (.ok ()) (.error .connectError))
  have h6 := h.2.2.2.2.2.1 .connectError rfl rfl
  have h7 := h.2.2.2.2.2.2 .connectError .connectError rfl rfl rfl rfl
  exact ⟨h6.1, h6.2, h7⟩

/-- C3 counterexample: an httpx request error that is neither a connect
failure nor a timeout (e.g. `httpx.ReadError`) is re-raised by
`except httpx.RequestError: raise` and escapes `is_buy_signal` without
being retried, refuting "only connect failures and timeouts may escape". -/
theorem C3_counterexample :
    (isBuySignal (worldOf (.ok ()) (.error .otherRequestError))).result =
        .error .otherRequestError ∧
    PyExc.otherRequestError ≠ .connectError ∧
    PyExc.otherRequestError ≠ .timeoutException := by
  refine ⟨?_, by decide, by decide⟩
  rfl

/-- C3 (amended): an exception raised during the classification call that
is not an `httpx.RequestError` is caught, logged, and turned into false;
every `httpx.RequestError` — a class that contains, but is not limited
to, connect failures and timeouts — is re-raised, and request errors that
are not connect failures or timeouts escape the wrapper without being
retried. -/
theorem C3_exception_containment (world : Nat → AttemptWorld) (e : PyExc)
    (hconn : (world 1).conn = .ok ()) :
    ((world 1).post = .error e → isRequestError e = false →
      (isBuySignal world).result = .ok false ∧
      ∃ l ∈ (isBuySignal world).logs, l.level = .error) ∧
    ((world 1).post = .error e → isRequestError e = true →
      (isBuySignalOnce (world 1)).result = .error e) ∧
    ((world 1).post = .error e → isRequestError e = true →
      isRetryableExc e = false → (isBuySignal world).result = .error e) ∧
    (∀ resp, (world 1).post = .ok resp → resp.status = 200 →
      resp.body = .error e → isRequestError e = false →
      (isBuySignal world).result = .ok false) ∧
    (∀ resp x rest, (world 1).post = .ok resp → resp.status = 200 →
      resp.body = .ok (.arr (x :: rest)) → getGeneratedText x = none →
      (isBuySignal world).result = .ok false) := by
  refine ⟨fun hpost hreq => ?_, fun hpost hreq => ?_,
    fun hpost hreq hnr => ?_, fun resp hpost hst hbody hreq => ?_,
    fun resp x rest hpost hst hbody hget => ?_⟩
  · have h := (isBuySignalOnce_postError (world 1) e hconn hpost).2 hreq
    rw [isBuySignal_ok world false h.1]
    exact ⟨rfl, h.2⟩
  · exact (isBuySignalOnce_postError (world 1) e hconn hpost).1 hreq
  · have h := (isBuySignalOnce_postError (world 1) e hconn hpost).1 hreq
    rw [isBuySignal_noRetry world e h hnr]
  · have h := isBuySignalOnce_jsonError (world 1) resp e hconn hpost hst
      hbody hreq
    rw [isBuySignal_ok world false h]
  · have h := isBuySignalOnce_getNone (world 1) resp x rest hconn hpost hst
      hbody hget
    rw [isBuySignal_ok world false h]

/-- Witness for C3: a non-request-error exception during the call (here a
generic exception from `client.post`) yields false instead of
propagating. -/
theorem C3_witness :
    (isBuySignal (worldOf (.ok ()) (.error .otherError))).result =
      .ok false := by
  exact ((C3_exception_containment (worldOf (.ok ()) (.error .otherError))
    .otherError rfl).1 rfl rfl).1

/-- C6: For every input, if the pre-flight reachability probe to the
inference endpoint's host on port 443 fails, `is_buy_signal` returns
false without issuing the HTTP request to the endpoint and without
raising any exception. -/
theorem C6_probe_short_circuit (world : Nat → AttemptWorld) (e : PyExc)
    (hos : isOSErrorClass e = true)
    (hconn : (world 1).conn = .error e) :
    (isBuySignal world).result = .ok false ∧
    (isBuySignal world).requests = [false] ∧
    (isBuySignal world).attempts = 1 := by
  have h := isBuySignalOnce_probeFail (world 1) e hos hconn
  have hres : (isBuySignalOnce (world 1)).result = .ok false := by rw [h]
  rw [isBuySignal_ok world false hres]
  refine ⟨rfl, ?_, rfl⟩
  rw [h]

/-- Witness for C6: a DNS/socket failure on the probe yields false with no
request issued and a single attempt. -/
theorem C6_witness :
    (isBuySignal (worldOf (.error .osError) (.ok yesResp))).result =
        .ok false ∧
    (isBuySignal (worldOf (.error .osError) (.ok yesResp))).requests =
        [false] ∧
    (isBuySignal (worldOf (.error .osError) (.ok yesResp))).attempts = 1 :=
  C6_probe_short_circuit (worldOf (.error .osError) (.ok yesResp))
    .osError rfl rfl

lemma pyTake_length (s : String) (n : Nat) : (pyTake s n).length ≤ n := by
  show (s.toList.take n).length ≤ n
  simp [List.length_take]

lemma processTweet_ok_some (c : Int) (h : String) (t : RawTweet)
    (it : TweetItem) (hp : processTweet c h t = .ok (some it)) :
    it.text.length ≤ 500 ∧ it.time.tzUtc = true ∧
    (toMin it.time : Int) > c ∧ it.handle = h := by
  unfold processTweet at hp
  split at hp
  · exact Except.noConfusion hp
  split at hp
  · exact Except.noConfusion hp
  split at hp
  · exact Except.noConfusion hp
  split at hp
  · exact Except.noConfusion hp
  split at hp
  · exact Except.noConfusion hp
  dsimp only at hp
  split at hp
  · injection hp with hp1
    injection hp1 with hp2
    subst hp2
    exact ⟨pyTake_length _ _, rfl, by assumption, rfl⟩
  · exact Option.noConfusion (Except.ok.inj hp)

lemma processTweet_noStatus (c : Int) (h : String) (t : RawTweet)
    (content link : String)
    (hc : t.content = some content) (hl : t.link = some link)
    (hns : (pySplit link "/status/").length = 1) :
    processTweet c h t = .error .indexError := by
  have hpi : pyIndex (pySplit link "/status/") 1 = none := by
    unfold pyIndex
    rw [List.get?_eq_none]
    omega
  unfold processTweet
  rw [hc, hl]
  dsimp only
  rw [hpi]

lemma scanEntries_nil (c : Int) (h : String) :
    scanEntries c h [] = ([], none, []) := rfl

lemma scanEntries_mem (c : Int) (h : String) (l : List RawTweet) :
    ∀ it ∈ (scanEntries c h l).1,
      ∃ t ∈ l, processTweet c h t = .ok (some it) := by
  induction l with
  | nil => intro it hit; simp [scanEntries] at hit
  | cons t rest ih =>
      intro it hit
      unfold scanEntries at hit
      split at hit
      · rename_i item heq
        dsimp only at hit
        rcases List.mem_cons.mp hit with h1 | h2
        · exact ⟨t, List.mem_cons_self t rest, by rw [heq, h1]⟩
        · obtain ⟨t', ht', hp⟩ := ih it h2
          exact ⟨t', List.mem_cons_of_mem _ ht', hp⟩
      · obtain ⟨t', ht', hp⟩ := ih it hit
        exact ⟨t', List.mem_cons_of_mem _ ht', hp⟩
      · rename_i e heq
        split at hit
        · dsimp only at hit
          obtain ⟨t', ht', hp⟩ := ih it hit
          exact ⟨t', List.mem_cons_of_mem _ ht', hp⟩
        · simp at hit

lemma scanEntries_length (c : Int) (h : String) (l : List RawTweet) :
    (scanEntries c h l).1.length ≤ l.length := by
  induction l with
  | nil => simp [scanEntries]
  | cons t rest ih =>
      unfold scanEntries
      split
      · dsimp only; simp only [List.length_cons]; omega
      · simp only [List.length_cons]; omega
      · split
        · dsimp only; simp only [List.length_cons]; omega
        · simp

lemma scanEntries_append_escape (c : Int) (h : String) (pre : List RawTweet)
    (t : RawTweet) (post : List RawTweet) (e : PyExc)
    (hpre : (scanEntries c h pre).2.1 = none)
    (ht : processTweet c h t = .error e)
    (hesc : caughtByEntryHandler e = false) :
    (scanEntries c h (pre ++ t :: post)).1 = (scanEntries c h pre).1 ∧
    (scanEntries c h (pre ++ t :: post)).2.1 = some e := by
  induction pre with
  | nil =>
      simp only [List.nil_append, scanEntries_nil]
      unfold scanEntries
      rw [ht]
      simp [hesc]
  | cons p pre ih =>
      unfold scanEntries at hpre
      simp only [List.cons_append]
      unfold scanEntries
      rcases hpp : processTweet c h p with ep | op
      · rw [hpp] at hpre
        by_cases hcp : caughtByEntryHandler ep
        · simp only [hcp, if_true] at hpre ⊢
          try dsimp only at hpre ⊢
          exact ih hpre
        · simp only [hcp, if_false] at hpre
          exact absurd hpre (by simp)
      · rw [hpp] at hpre
        rcases op with _ | item
        · exact ih hpre
        · dsimp only at hpre ⊢
          have := ih hpre
          exact ⟨by rw [this.1], this.2⟩

lemma get_recent_tweets_ok (now : PyDateTime) (h : String)
    (entries : List RawTweet) :
    (get_recent_tweets now h (.ok entries)).items =
      (scanEntries ((toMin now : Int) - 60) h (entries.take 5)).1 ∧
    (get_recent_tweets now h (.ok entries)).caught =
      (scanEntries ((toMin now : Int) - 60) h (entries.take 5)).2.1 ∧
    (get_recent_tweets now h (.ok entries)).logs =
      ⟨.info, "Scraping @" ++ h⟩ ::
        (scanEntries ((toMin now : Int) - 60) h (entries.take 5)).2.2 ++
        (match (scanEntries ((toMin now : Int) - 60) h (entries.take 5)).2.1 with
         | some e => [⟨.error, "Scraping error: " ++ excMsg e⟩]
         | none => []) ++
        [⟨.info, "Found " ++
          toString (scanEntries ((toMin now : Int) - 60) h (entries.take 5)).1.length
          ++ " valid tweets"⟩] := by
  unfold get_recent_tweets
  exact ⟨rfl, rfl, rfl⟩

lemma get_recent_tweets_error (now : PyDateTime) (h : String) (e : PyExc) :
    (get_recent_tweets now h (.error e)).items = [] ∧
    (get_recent_tweets now h (.error e)).caught = some e ∧
    LogEntry.mk .error ("Scraping error: " ++ excMsg e) ∈
      (get_recent_tweets now h (.error e)).logs := by
  unfold get_recent_tweets
  exact ⟨rfl, rfl, by simp⟩

/-- C5: Every list returned by `get_recent_tweets` contains at most 5
items, and every item in it satisfies: its text field is at most 500
characters long, its timestamp carries an explicit UTC offset, and its
timestamp is strictly after (scrape time − 1 hour); any extracted entry
whose timestamp is not strictly after that cutoff is excluded from the
output. -/
theorem C5_scrape_invariants (now : PyDateTime) (handle : String)
    (page : Except PyExc (List RawTweet)) :
    (get_recent_tweets now handle page).items.length ≤ 5 ∧
    ∀ it ∈ (get_recent_tweets now handle page).items,
      it.text.length ≤ 500 ∧ it.time.tzUtc = true ∧
      (toMin it.time : Int) > (toMin now : Int) - 60 := by
  rcases page with e | entries
  · rw [(get_recent_tweets_error now handle e).1]
    exact ⟨by simp, by simp⟩
  · rw [(get_recent_tweets_ok now handle entries).1]
    constructor
    · refine le_trans (scanEntries_length _ _ _) ?_
      rw [List.length_take]
      exact min_le_left _ _
    · intro it hit
      obtain ⟨t, _, hp⟩ := scanEntries_mem _ _ _ it hit
      have hps := processTweet_ok_some _ _ _ _ hp
      exact ⟨hps.1, hps.2.1, hps.2.2.1⟩

/-- Witness for C5 at a concrete page: the bound holds and `goodItem`
satisfies the per-item invariants. -/
theorem C5_witness :
    (get_recent_tweets exNow "bob" (.ok [goodEntry])).items.length ≤ 5 ∧
    (goodItem.text.length ≤ 500 ∧ goodItem.time.tzUtc = true ∧
      (toMin goodItem.time : Int) > (toMin exNow : Int) - 60) := by
  have h := C5_scrape_invariants exNow "bob" (.ok [goodEntry])
  refine ⟨h.1, h.2 goodItem ?_⟩
  rw [show (get_recent_tweets exNow "bob" (.ok [goodEntry])).items =
      [goodItem] from rfl]
  exact List.mem_singleton_self goodItem



/-- C10: The per-entry handler in `get_recent_tweets` catches only
missing-element and timestamp-parse failures (`NoSuchElementException`
and `ValueError`); for any scrape entry whose permalink does not contain
the substring "/status/", deriving the item identifier raises an
`IndexError` that escapes the per-entry handler to the account-level
handler, so the remaining entries of that account are not processed and
only the items collected before that entry are returned. -/
theorem C10_index_error_escapes (now : PyDateTime) (handle : String)
    (entries pre post : List RawTweet) (t : RawTweet) (content link : String)
    (hc : t.content = some content) (hl : t.link = some link)
    (hns : (pySplit link "/status/").length = 1)
    (htake : entries.take 5 = pre ++ t :: post)
    (hpre : (scanEntries ((toMin now : Int) - 60) handle pre).2.1 = none) :
    (∀ e, caughtByEntryHandler e = true ↔
      (e = .noSuchElement ∨ e = .valueError)) ∧
    processTweet ((toMin now : Int) - 60) handle t = .error .indexError ∧
    (get_recent_tweets now handle (.ok entries)).items =
      (scanEntries ((toMin now : Int) - 60) handle pre).1 ∧
    (get_recent_tweets now handle (.ok entries)).caught = some .indexError := by
  have hpt := processTweet_noStatus ((toMin now : Int) - 60) handle t content
    link hc hl hns
  have hasp := scanEntries_append_escape ((toMin now : Int) - 60) handle pre t
    post .indexError hpre hpt rfl
  refine ⟨fun e => by cases e <;> simp [caughtByEntryHandler], hpt, ?_, ?_⟩
  · rw [(get_recent_tweets_ok now handle entries).1, htake]
    exact hasp.1
  · rw [(get_recent_tweets_ok now handle entries).2.1, htake]
    exact hasp.2

/-- Witness for C10: with a good entry followed by a bad-permalink entry,
only the first entry's item is returned and the `IndexError` reaches the
account-level handler. -/
theorem C10_witness :
    (get_recent_tweets exNow "bob" (.ok [goodEntry, badLinkEntry])).items =
      [goodItem] ∧
    (get_recent_tweets exNow "bob" (.ok [goodEntry, badLinkEntry])).caught =
      some .indexError := by
  have h := C10_index_error_escapes exNow "bob" [goodEntry, badLinkEntry]
    [goodEntry] [] badLinkEntry "hello" "https://nitter.net/bob/with_replies"
    rfl rfl rfl rfl rfl
  exact ⟨h.2.2.1.trans rfl, h.2.2.2⟩

/-- C4 counterexample: an entry-processing `IndexError` not covered by
the per-item handler is caught at the account level, yet the function
returns the item collected before it — a non-empty list — refuting
"returns an empty list for that account". -/
theorem C4_counterexample :
    (get_recent_tweets exNow "bob" (.ok [goodEntry, badLinkEntry])).caught =
        some .indexError ∧
    (get_recent_tweets exNow "bob" (.ok [goodEntry, badLinkEntry])).items ≠
        [] := by
  refine ⟨rfl, fun hcontra => ?_⟩
  rw [show (get_recent_tweets exNow "bob"
      (.ok [goodEntry, badLinkEntry])).items = [goodItem] from rfl] at hcontra
  exact List.noConfusion hcontra

/-- C4 (amended): for every account handle, if any exception is raised
during navigation or extraction for the whole account, `get_recent_tweets`
catches it, logs it at error level, and returns the items collected
before the exception — an empty list when the failure precedes any
successful entry (e.g. a page-load failure); it never raises to its
caller. -/
theorem C4_account_isolation (now : PyDateTime) (handle : String)
    (page : Except PyExc (List RawTweet)) :
    (∀ e, page = .error e →
      (get_recent_tweets now handle page).items = [] ∧
      (get_recent_tweets now handle page).caught = some e) ∧
    (∀ e, (get_recent_tweets now handle page).caught = some e →
      LogEntry.mk .error ("Scraping error: " ++ excMsg e) ∈
        (get_recent_tweets now handle page).logs) ∧
    (∀ entries pre t post e, page = .ok entries →
      entries.take 5 = pre ++ t :: post →
      (scanEntries ((toMin now : Int) - 60) handle pre).2.1 = none →
      processTweet ((toMin now : Int) - 60) handle t = .error e →
      caughtByEntryHandler e = false →
      (get_recent_tweets now handle page).items =
        (scanEntries ((toMin now : Int) - 60) handle pre).1 ∧
      (get_recent_tweets now handle page).caught = some e) := by
  refine ⟨fun e hpage => ?_, fun e hcaught => ?_,
    fun entries pre t post e hpage htake hpre hpt hesc => ?_⟩
  · subst hpage
    exact ⟨(get_recent_tweets_error now handle e).1,
      (get_recent_tweets_error now handle e).2.1⟩
  · rcases page with e' | entries
    · have h := get_recent_tweets_error now handle e'
      rw [h.2.1] at hcaught
      injection hcaught with h1
      subst h1
      exact h.2.2
    · have h := get_recent_tweets_ok now handle entries
      rw [h.2.1] at hcaught
      rw [h.2.2, hcaught]
      simp
  · subst hpage
    have hasp := scanEntries_append_escape ((toMin now : Int) - 60) handle pre
      t post e hpre hpt hesc
    constructor
    · rw [(get_recent_tweets_ok now handle entries).1, htake]
      exact hasp.1
    · rw [(get_recent_tweets_ok now handle entries).2.1, htake]
      exact hasp.2

/-- Witness for C4: a navigation failure yields an empty list and is
recorded by the account-level handler. -/
theorem C4_witness :
    (get_recent_tweets exNow "bob" (.error .osError)).items = [] ∧
    (get_recent_tweets exNow "bob" (.error .osError)).caught =
      some .osError :=
  (C4_account_isolation exNow "bob" (.error .osError)).1 .osError rfl


lemma processItems_cons (env : CycleEnv) (name handle : String)
    (t : TweetItem) (rest : List TweetItem) :
    processItems env name handle (t :: rest) =
      match ((match env.classify t.text with
             | .error e => .error e
             | .ok isBuy =>
                 if isBuy then
                   match env.send (buildMessage name handle t) with
                   | .error e => .error e
                   | .ok _ => .ok [buildMessage name handle t]
                 else
                   .ok []) : Except PyExc (List String)) with
      | .ok sentNow =>
          (sentNow ++ (processItems env name handle rest).1,
            ⟨.info, "Buy signal"⟩ :: (processItems env name handle rest).2)
      | .error e =>
          ((processItems env name handle rest).1,
            ⟨.error, "Processing error: " ++ excMsg e⟩ ::
              (processItems env name handle rest).2) := rfl

lemma processItems_classifyError (env : CycleEnv) (name handle : String)
    (t : TweetItem) (rest : List TweetItem) (e : PyExc)
    (h : env.classify t.text = .error e) :
    (processItems env name handle (t :: rest)).1 =
      (processItems env name handle rest).1 ∧
    LogEntry.mk .error ("Processing error: " ++ excMsg e) ∈
      (processItems env name handle (t :: rest)).2 := by
  rw [processItems_cons, h]
  simp

lemma processItems_sendError (env : CycleEnv) (name handle : String)
    (t : TweetItem) (rest : List TweetItem) (e : PyExc)
    (hc : env.classify t.text = .ok true)
    (hs : env.send (buildMessage name handle t) = .error e) :
    (processItems env name handle (t :: rest)).1 =
      (processItems env name handle rest).1 ∧
    LogEntry.mk .error ("Processing error: " ++ excMsg e) ∈
      (processItems env name handle (t :: rest)).2 := by
  rw [processItems_cons, hc]
  simp [hs]

lemma processItems_step_ok (env : CycleEnv) (name handle : String)
    (t : TweetItem) (rest : List TweetItem) (b : Bool)
    (hc : env.classify t.text = .ok b)
    (hs : b = true → env.send (buildMessage name handle t) = .ok ()) :
    (processItems env name handle (t :: rest)).1 =
      (if b then [buildMessage name handle t] else []) ++
        (processItems env name handle rest).1 := by
  rw [processItems_cons, hc]
  cases b with
  | false => simp
  | true => simp [hs rfl]


lemma processItems_pure (env : CycleEnv) (name handle : String)
    (f : TweetItem → Bool) (items : List TweetItem)
    (hc : ∀ t ∈ items, env.classify t.text = .ok (f t))
    (hs : ∀ t ∈ items, f t = true →
      env.send (buildMessage name handle t) = .ok ()) :
    (processItems env name handle items).1 =
      (items.filter f).map (buildMessage name handle) := by
  induction items with
  | nil => rfl
  | cons t rest ih =>
      have hstep := processItems_step_ok env name handle t rest (f t)
        (hc t (List.mem_cons_self t rest))
        (fun hb => hs t (List.mem_cons_self t rest) hb)
      rw [hstep, List.filter_cons]
      have ih2 := ih (fun u hu => hc u (List.mem_cons_of_mem _ hu))
        (fun u hu hb => hs u (List.mem_cons_of_mem _ hu) hb)
      cases hf : f t with
      | false => simpa [hf] using ih2
      | true => simpa [hf] using ih2

lemma accountLoop_single_ok (env : CycleEnv) (handle name : String)
    (tweets : List TweetItem) (h : env.fetch handle = .ok tweets) :
    (accountLoop env [(handle, name)]).1 =
      (processItems env name handle tweets).1 ∧
    (accountLoop env [(handle, name)]).2.1 = none := by
  unfold accountLoop
  rw [h]
  simp [accountLoop]

lemma check_influencers_ok (env : CycleEnv)
    (accounts : List (String × String)) (h : env.scraperInit = .ok ()) :
    (check_influencers env accounts).sent = (accountLoop env accounts).1 ∧
    (check_influencers env accounts).closeCount = 1 ∧
    (check_influencers env accounts).propagated = none ∧
    (check_influencers env accounts).logs =
      (accountLoop env accounts).2.2 ++
        (match (accountLoop env accounts).2.1 with
         | some e => [⟨.error, "Cycle error: " ++ excMsg e⟩]
         | none => []) ++
        [⟨.info, "Monitoring complete"⟩] := by
  unfold check_influencers
  rw [h]
  exact ⟨rfl, rfl, rfl, rfl⟩

lemma check_influencers_initFail (env : CycleEnv)
    (accounts : List (String × String)) (e : PyExc)
    (h : env.scraperInit = .error e) :
    check_influencers env accounts = ⟨[], 0, some e, []⟩ := by
  unfold check_influencers
  rw [h]


/-- C7: Within a cycle, for every candidate item, any exception raised
during that item's classify-or-alert step is caught by the orchestrator,
logged, and processing continues with the next item; in particular, for
an account yielding two items where classification of the first raises
and the second classifies true, exactly one alert is sent, corresponding
to the second item only. -/
theorem C7_item_isolation (env : CycleEnv) (name handle : String) :
    (∀ t rest e, env.classify t.text = .error e →
      (processItems env name handle (t :: rest)).1 =
        (processItems env name handle rest).1 ∧
      LogEntry.mk .error ("Processing error: " ++ excMsg e) ∈
        (processItems env name handle (t :: rest)).2) ∧
    (∀ t rest e, env.classify t.text = .ok true →
      env.send (buildMessage name handle t) = .error e →
      (processItems env name handle (t :: rest)).1 =
        (processItems env name handle rest).1 ∧
      LogEntry.mk .error ("Processing error: " ++ excMsg e) ∈
        (processItems env name handle (t :: rest)).2) ∧
    (∀ t1 t2 e, env.scraperInit = .ok () →
      env.fetch handle = .ok [t1, t2] →
      env.classify t1.text = .error e →
      env.classify t2.text = .ok true →
      env.send (buildMessage name handle t2) = .ok () →
      (check_influencers env [(handle, name)]).sent =
        [buildMessage name handle t2] ∧
      (check_influencers env [(handle, name)]).propagated = none) := by
  refine ⟨fun t rest e h => processItems_classifyError env name handle t rest e h,
    fun t rest e hc hs => processItems_sendError env name handle t rest e hc hs,
    fun t1 t2 e hinit hfetch hc1 hc2 hsend => ?_⟩
  have hci := check_influencers_ok env [(handle, name)] hinit
  have hal := accountLoop_single_ok env handle name [t1, t2] hfetch
  refine ⟨?_, hci.2.2.1⟩
  rw [hci.1, hal.1]
  rw [(processItems_classifyError env name handle t1 [t2] e hc1).1]
  rw [processItems_step_ok env name handle t2 [] true hc2 (fun _ => hsend)]
  simp [processItems]

/-- Witness for C7: account "bob" yields two items; the first raises
during classification, the second classifies true; exactly the second
item's alert is sent and nothing propagates. -/
theorem C7_witness :
    (check_influencers bobEnv [("bob", "Bob")]).sent =
      [buildMessage "Bob" "bob" bobT2] ∧
    (check_influencers bobEnv [("bob", "Bob")]).propagated = none :=
  (C7_item_isolation bobEnv "Bob" "bob").2.2 bobT1 bobT2 .otherError
    rfl rfl rfl rfl rfl

/-- C8 counterexample: `scraper = TwitterScraper()` runs before the
`try`, and the constructor re-raises WebDriver failures, so an invocation
with a failing constructor propagates the exception to the scheduler and
never calls `close` — refuting "catches any exception … and releases the
browser resource exactly once, on every exit path". -/
theorem C8_counterexample :
    (check_influencers failInitEnv INFLUENCERS).closeCount = 0 ∧
    (check_influencers failInitEnv INFLUENCERS).propagated =
      some .otherError := ⟨rfl, rfl⟩

/-- C8 (amended): when the scraper is constructed successfully, every
invocation of `check_influencers` catches any exception escaping the
per-account loop (logging it, never propagating it to the scheduler) and
calls the scraper's close exactly once, on every exit path including
exceptional ones; if the scraper constructor itself fails, that exception
propagates to the scheduler and close is not called. -/
theorem C8_cycle_cleanup (env : CycleEnv)
    (accounts : List (String × String)) :
    (env.scraperInit = .ok () →
      (check_influencers env accounts).propagated = none ∧
      (check_influencers env accounts).closeCount = 1 ∧
      (∀ e, (accountLoop env accounts).2.1 = some e →
        LogEntry.mk .error ("Cycle error: " ++ excMsg e) ∈
          (check_influencers env accounts).logs)) ∧
    (∀ e, env.scraperInit = .error e →
      (check_influencers env accounts).propagated = some e ∧
      (check_influencers env accounts).closeCount = 0) := by
  constructor
  · intro h
    have hci := check_influencers_ok env accounts h
    refine ⟨hci.2.2.1, hci.2.1, fun e hesc => ?_⟩
    rw [hci.2.2.2, hesc]
    simp
  · intro e h
    rw [check_influencers_initFail env accounts e h]
    exact ⟨rfl, rfl⟩

/-- Witness for C8: a successful cycle over the configured account list
closes exactly once and propagates nothing; a failing constructor
propagates and never closes. -/
theorem C8_witness :
    (check_influencers okEnv INFLUENCERS).propagated = none ∧
    (check_influencers okEnv INFLUENCERS).closeCount = 1 ∧
    (check_influencers failInitEnv INFLUENCERS).propagated =
      some .otherError ∧
    (check_influencers failInitEnv INFLUENCERS).closeCount = 0 := by
  have h1 := (C8_cycle_cleanup okEnv INFLUENCERS).1 rfl
  have h2 := (C8_cycle_cleanup failInitEnv INFLUENCERS).2 .otherError rfl
  exact ⟨h1.1, h1.2.1, h2.1, h2.2⟩

/-- C9: For every candidate item classified as true, the orchestrator
sends exactly one alert message to the configured destination, and that
message contains an alert marker, the account's display name, the item's
timestamp formatted in UTC, at most the first 200 characters of the
item's text followed by an ellipsis marker, and a permalink constructed
from the account handle and the item identifier. -/
theorem C9_alert_format (env : CycleEnv) (name handle : String)
    (f : TweetItem → Bool) :
    (∀ items, (∀ t ∈ items, env.classify t.text = .ok (f t)) →
      (∀ t ∈ items, f t = true →
        env.send (buildMessage name handle t) = .ok ()) →
      (processItems env name handle items).1 =
        (items.filter f).map (buildMessage name handle)) ∧
    (∀ t : TweetItem,
      (∃ post, buildMessage name handle t = alertMarker ++ post) ∧
      (∃ pre post, buildMessage name handle t = pre ++ (name ++ post)) ∧
      (∃ pre post, buildMessage name handle t =
        pre ++ (strftimeAlert t.time ++ post)) ∧
      (∃ pre, strftimeAlert t.time = pre ++ " UTC") ∧
      (∃ pre post, buildMessage name handle t =
        pre ++ ((pyTake t.text 200 ++ "...") ++ post)) ∧
      (∃ pre, buildMessage name handle t =
        pre ++ ("https://twitter.com/" ++ (handle ++ ("/status/" ++ t.id))))) := by
  refine ⟨fun items hc hs => processItems_pure env name handle f items hc hs,
    fun t => ?_⟩
  refine ⟨?_, ?_, ?_, ?_, ?_, ?_⟩
  · exact ⟨" BUY ALERT from " ++ name ++ "\n" ++ dateMarker ++ " " ++
      strftimeAlert t.time ++ "\n" ++ textMarker ++ " " ++ pyTake t.text 200 ++
      "...\n" ++ linkMarker ++ " https://twitter.com/" ++ handle ++
      "/status/" ++ t.id, by simp [buildMessage, String.append_assoc]⟩
  · exact ⟨alertMarker ++ " BUY ALERT from ", "\n" ++ dateMarker ++ " " ++
      strftimeAlert t.time ++ "\n" ++ textMarker ++ " " ++ pyTake t.text 200 ++
      "...\n" ++ linkMarker ++ " https://twitter.com/" ++ handle ++
      "/status/" ++ t.id, by simp [buildMessage, String.append_assoc]⟩
  · exact ⟨alertMarker ++ " BUY ALERT from " ++ name ++ "\n" ++ dateMarker ++
      " ", "\n" ++ textMarker ++ " " ++ pyTake t.text 200 ++ "...\n" ++
      linkMarker ++ " https://twitter.com/" ++ handle ++ "/status/" ++ t.id,
      by simp [buildMessage, String.append_assoc]⟩
  · exact ⟨toString t.time.year ++ "-" ++ pad2 t.time.month ++ "-" ++
      pad2 t.time.day ++ " " ++ pad2 t.time.hour ++ ":" ++ pad2 t.time.minute,
      rfl⟩
  · refine ⟨alertMarker ++ " BUY ALERT from " ++ name ++ "\n" ++ dateMarker ++
      " " ++ strftimeAlert t.time ++ "\n" ++ textMarker ++ " ",
      "\n" ++ linkMarker ++ " https://twitter.com/" ++ handle ++ "/status/" ++
      t.id, ?_⟩
    simp only [buildMessage]
    simp [String.append_assoc]
    rw [show ("...\n" : String) = "..." ++ "\n" from rfl,
      String.append_assoc]
  · refine ⟨alertMarker ++ " BUY ALERT from " ++ name ++ "\n" ++ dateMarker ++
      " " ++ strftimeAlert t.time ++ "\n" ++ textMarker ++ " " ++
      pyTake t.text 200 ++ "...\n" ++ linkMarker ++ " ", ?_⟩
    simp only [buildMessage]
    simp [String.append_assoc]
    rw [show (" https://twitter.com/" : String) = " " ++ "https://twitter.com/"
      from rfl, String.append_assoc]

/-- Witness for C9: account "alice" yields one item classified true;
exactly one message is produced and it starts with the alert marker. -/
theorem C9_witness :
    (processItems aliceEnv "Alice" "alice" [aliceItem]).1 =
      [buildMessage "Alice" "alice" aliceItem] ∧
    (∃ post, buildMessage "Alice" "alice" aliceItem = alertMarker ++ post) := by
  have h := C9_alert_format aliceEnv "Alice" "alice" (fun _ => true)
  constructor
  · have h1 := h.1 [aliceItem] (fun t _ => rfl) (fun t _ _ => rfl)
    simpa using h1
  · exact (h.2 aliceItem).1

end CryptoBot
